import Mathlib

/-!
# ATM simulator backend (`src/backend/server.js`)

A shallow embedding of the Express/Mongoose backend: the `User` schema, the
six `/api` route handlers, and the JavaScript coercions the handlers rely on.

Modelling conventions.

* Request bodies hold JSON scalars (`JSValue`); arrays and objects are not
  modelled.  The text fields `name`, `email` and `pin` of a signup are JSON
  strings or absent.
* A JavaScript number is `JSNum`: `NaN`, the two infinities, or an exact
  rational.  Rounding and overflow of IEEE doubles are not modelled, and a
  JSON number literal denotes a finite rational.
* The MongoDB collection is the list of stored `User` documents, oldest
  first.  ObjectIds and clock readings are supplied by the environment.
  The `_id` of a transaction subdocument and the version key are left out.
* A handler is a function from the collection and the request to the
  response and the new collection; an exception caught by the handler's
  `try`/`catch` is the 500 response with the collection unchanged.
-/

namespace ATM

/-! ## JavaScript numbers -/

/-- A JavaScript number. -/
inductive JSNum where
  | nan : JSNum
  | ninf : JSNum
  | fin (q : ℚ) : JSNum
  | pinf : JSNum
  deriving DecidableEq

namespace JSNum

/-- Unary minus. -/
def neg : JSNum → JSNum
  | nan => nan
  | ninf => pinf
  | fin q => fin (-q)
  | pinf => ninf

/-- The `+` of two numbers. -/
def add : JSNum → JSNum → JSNum
  | nan, _ => nan
  | _, nan => nan
  | pinf, ninf => nan
  | ninf, pinf => nan
  | pinf, _ => pinf
  | _, pinf => pinf
  | ninf, _ => ninf
  | _, ninf => ninf
  | fin a, fin b => fin (a + b)

/-- The `-` of two numbers. -/
def sub (a b : JSNum) : JSNum := add a (neg b)

/-- The `<` of two numbers; false when either side is `NaN`. -/
def lt : JSNum → JSNum → Bool
  | nan, _ => false
  | _, nan => false
  | ninf, ninf => false
  | ninf, _ => true
  | _, ninf => false
  | pinf, _ => false
  | fin _, pinf => true
  | fin a, fin b => decide (a < b)

/-- The `<=` of two numbers; false when either side is `NaN`. -/
def le : JSNum → JSNum → Bool
  | nan, _ => false
  | _, nan => false
  | a, b => !(lt b a)

/-- The `>=` of two numbers; false when either side is `NaN`. -/
def ge (a b : JSNum) : Bool := le b a

/-- The global `isNaN` on a number. -/
def isNaN : JSNum → Bool
  | nan => true
  | _ => false

end JSNum

/-! ## JavaScript strings -/

/-- The characters matched by `\s` in a regular expression, which are also
the ones removed by `String.prototype.trim` and skipped by `Number` and
`parseFloat`: WhiteSpace and LineTerminator. -/
def isWhiteSpace (c : Char) : Bool :=
  let n := c.toNat
  n = 0x09 || n = 0x0A || n = 0x0B || n = 0x0C || n = 0x0D || n = 0x20 ||
  n = 0xA0 || n = 0x1680 || (0x2000 ≤ n && n ≤ 0x200A) || n = 0x2028 ||
  n = 0x2029 || n = 0x202F || n = 0x205F || n = 0x3000 || n = 0xFEFF

/-- The characters matched by `\d` (no `u` flag): `0` to `9`. -/
def isDigit (c : Char) : Bool :=
  48 ≤ c.toNat && c.toNat ≤ 57

/-- The call `s.replace(/\s+/g, '')`: every run of whitespace is deleted. -/
def removeSpaces (s : String) : String :=
  ⟨s.data.filter (fun c => !isWhiteSpace c)⟩

/-- The test `/^\d{lo,hi}$/.test(s)`. -/
def digitsBetween (lo hi : Nat) (s : String) : Bool :=
  s.data.all isDigit && decide (lo ≤ s.data.length) && decide (s.data.length ≤ hi)

/-- The method `String.prototype.trim` on a list of characters. -/
def trimChars (cs : List Char) : List Char :=
  ((cs.dropWhile isWhiteSpace).reverse.dropWhile isWhiteSpace).reverse

/-- The method `String.prototype.trim`. -/
def trim (s : String) : String := ⟨trimChars s.data⟩

/-- The method `String.prototype.toLowerCase`, on the ASCII letters. -/
def toLowerCase (s : String) : String := ⟨s.data.map Char.toLower⟩

/-! ## Numeric literals in strings -/

/-- The value of a run of decimal digits. -/
def digitsValue (ds : List Char) : Nat :=
  ds.foldl (fun n c => 10 * n + (c.toNat - 48)) 0

/-- The value of a hexadecimal digit, if it is one. -/
def hexDigit (c : Char) : Option Nat :=
  let n := c.toNat
  if 48 ≤ n && n ≤ 57 then some (n - 48)
  else if 97 ≤ n && n ≤ 102 then some (n - 87)
  else if 65 ≤ n && n ≤ 70 then some (n - 55)
  else none

/-- The value of a run of digits in the given radix (2, 8 or 16), or `none`
when the run is empty or holds a character that is no digit of the radix. -/
def radixValue (radix : Nat) (ds : List Char) : Option Nat :=
  if ds.isEmpty then none
  else ds.foldl (fun acc c =>
    match acc, hexDigit c with
    | some n, some d => if d < radix then some (radix * n + d) else none
    | _, _ => none) (some 0)

/-- The number `m * 10 ^ e` for an integer exponent. -/
def scale10 (m : ℚ) (e : Int) : ℚ :=
  match e with
  | Int.ofNat k => m * (10 : ℚ) ^ k
  | Int.negSucc k => m / (10 : ℚ) ^ (k + 1)

/-- An optional ExponentPart at the head of `cs`: the exponent and the rest.
Without digits after the indicator there is no exponent part. -/
def exponentPart (cs : List Char) : Int × List Char :=
  match cs with
  | c :: rest =>
    if c = 'e' || c = 'E' then
      match rest with
      | s :: rest2 =>
        if s = '+' then
          (if (rest2.takeWhile isDigit).isEmpty then (0, cs)
           else (Int.ofNat (digitsValue (rest2.takeWhile isDigit)), rest2.dropWhile isDigit))
        else if s = '-' then
          (if (rest2.takeWhile isDigit).isEmpty then (0, cs)
           else (- Int.ofNat (digitsValue (rest2.takeWhile isDigit)), rest2.dropWhile isDigit))
        else
          (if (rest.takeWhile isDigit).isEmpty then (0, cs)
           else (Int.ofNat (digitsValue (rest.takeWhile isDigit)), rest.dropWhile isDigit))
      | [] => (0, cs)
    else (0, cs)
  | [] => (0, cs)

/-- The longest StrUnsignedDecimalLiteral at the head of `cs`: its value and
the rest, or `none` when `cs` starts with no such literal. -/
def unsignedDecimal (cs : List Char) : Option (JSNum × List Char) :=
  if "Infinity".data.isPrefixOf cs then some (JSNum.pinf, cs.drop 8)
  else
    let ip := cs.takeWhile isDigit
    let r1 := cs.dropWhile isDigit
    match r1 with
    | c :: r2 =>
      if c = '.' then
        let fp := r2.takeWhile isDigit
        let r3 := r2.dropWhile isDigit
        if ip.isEmpty && fp.isEmpty then none
        else
          let m : ℚ := (digitsValue (ip ++ fp) : ℚ) / (10 : ℚ) ^ fp.length
          let er := exponentPart r3
          some (JSNum.fin (scale10 m er.1), er.2)
      else if ip.isEmpty then none
      else
        let er := exponentPart r1
        some (JSNum.fin (scale10 (digitsValue ip : ℚ) er.1), er.2)
    | [] =>
      if ip.isEmpty then none
      else some (JSNum.fin (digitsValue ip : ℚ), [])

/-- The longest StrDecimalLiteral (an optional sign, then an unsigned
literal) at the head of `cs`. -/
def strDecimal (cs : List Char) : Option (JSNum × List Char) :=
  match cs with
  | c :: rest =>
    if c = '+' then unsignedDecimal rest
    else if c = '-' then (unsignedDecimal rest).map (fun p => (JSNum.neg p.1, p.2))
    else unsignedDecimal cs
  | [] => none

/-- The abstract operation StringToNumber, behind `Number(s)` and the
coercion of a string operand of `<=`. -/
def stringToNumber (s : String) : JSNum :=
  let cs := trimChars s.data
  match cs with
  | [] => JSNum.fin 0
  | [_] =>
    match strDecimal cs with
    | some (v, []) => v
    | _ => JSNum.nan
  | a :: b :: rest =>
    if a = '0' && (b = 'x' || b = 'X') then
      match radixValue 16 rest with
      | some n => JSNum.fin n
      | none => JSNum.nan
    else if a = '0' && (b = 'o' || b = 'O') then
      match radixValue 8 rest with
      | some n => JSNum.fin n
      | none => JSNum.nan
    else if a = '0' && (b = 'b' || b = 'B') then
      match radixValue 2 rest with
      | some n => JSNum.fin n
      | none => JSNum.nan
    else
      match strDecimal cs with
      | some (v, []) => v
      | _ => JSNum.nan

/-- The global `parseFloat` on a string: leading whitespace is skipped and
the longest leading StrDecimalLiteral is read; `NaN` when there is none. -/
def parseFloatString (s : String) : JSNum :=
  match strDecimal (s.data.dropWhile isWhiteSpace) with
  | some (v, _) => v
  | none => JSNum.nan

/-! ## JSON scalars -/

/-- A field of a parsed request body: absent (`undefined`) or a JSON scalar. -/
inductive JSValue where
  | undefined : JSValue
  | null : JSValue
  | bool (b : Bool) : JSValue
  | num (q : ℚ) : JSValue
  | str (s : String) : JSValue
  deriving DecidableEq

namespace JSValue

/-- The abstract operation ToBoolean; `!v` is its negation. -/
def truthy : JSValue → Bool
  | undefined => false
  | null => false
  | bool b => b
  | num q => decide (q ≠ 0)
  | str s => decide (s ≠ "")

/-- The abstract operation ToNumber. -/
def toNumber : JSValue → JSNum
  | undefined => JSNum.nan
  | null => JSNum.fin 0
  | bool true => JSNum.fin 1
  | bool false => JSNum.fin 0
  | num q => JSNum.fin q
  | str s => stringToNumber s

/-- The global `parseFloat(v)`: the argument is converted to a string and
read.  The string of a number reads back as that number. -/
def parseFloat : JSValue → JSNum
  | undefined => parseFloatString "undefined"
  | null => parseFloatString "null"
  | bool true => parseFloatString "true"
  | bool false => parseFloatString "false"
  | num q => JSNum.fin q
  | str s => parseFloatString s

/-- The expression `a || b`. -/
def or (a b : JSValue) : JSValue := if a.truthy then a else b

end JSValue

/-! ## The `User` schema and the collection -/

/-- The `_id` of a stored document. -/
abbrev ObjectId := Nat

/-- A `Date`, as a clock reading. -/
abbrev Date := Nat

/-- The `enum` of `transactions.type`. -/
inductive TransactionType where
  | deposit : TransactionType
  | withdraw : TransactionType
  deriving DecidableEq

/-- An element of the `transactions` array of `userSchema`. -/
structure Transaction where
  type : TransactionType
  amount : JSNum
  balance : JSNum
  date : Date
  deriving DecidableEq

/-- A stored document of the `User` model. -/
structure User where
  _id : ObjectId
  name : String
  email : String
  cardNumber : String
  pin : String
  balance : JSNum
  transactions : List Transaction
  createdAt : Date
  deriving DecidableEq

/-- The `users` collection. -/
abbrev Store := List User

/-- The outcome of casting a value to a schema path of type `Number`. -/
inductive Cast where
  | error : Cast
  | empty : Cast
  | value (n : JSNum) : Cast
  deriving DecidableEq

/-- Mongoose's number cast on a JavaScript number: `NaN` is a CastError. -/
def castNumber (n : JSNum) : Cast :=
  if n.isNaN then Cast.error else Cast.value n

/-- Mongoose's number cast on a body value: `null`, `undefined` and the
empty string give no value, a string or boolean goes through `Number`. -/
def castNumberValue : JSValue → Cast
  | JSValue.undefined => Cast.empty
  | JSValue.null => Cast.empty
  | JSValue.bool b => castNumber (JSValue.bool b).toNumber
  | JSValue.num q => castNumber (JSNum.fin q)
  | JSValue.str s => if s = "" then Cast.empty else castNumber (stringToNumber s)

/-- The `balance` path of a new document built with the value `v`: `none`
is a CastError, a value that casts to nothing leaves the path to the schema's
`default: 1000.00`. -/
def balancePath (v : JSValue) : Option JSNum :=
  match castNumberValue v with
  | Cast.error => none
  | Cast.empty => some (JSNum.fin 1000)
  | Cast.value n => some n

/-- The setters of the `name` path: `trim`. -/
def setName (s : String) : String := trim s

/-- The setters of the `email` path: `lowercase`, `trim`.  Mongoose
applies them to stored values and to query conditions alike. -/
def setEmail (s : String) : String := trim (toLowerCase s)

/-- The setters of the `cardNumber` path: `trim`. -/
def setCardNumber (s : String) : String := trim s

/-- The validators of `userSchema` on a document whose paths are cast:
`required` on the four strings (an empty string is missing) and `min: 0`
on `balance`. -/
def validate (u : User) : Bool :=
  decide (u.name ≠ "") && decide (u.email ≠ "") && decide (u.cardNumber ≠ "") &&
  decide (u.pin ≠ "") && JSNum.ge u.balance (JSNum.fin 0)

/-- The query `User.findById(id)` for a well-formed id. -/
def findById (st : Store) (id : ObjectId) : Option User :=
  st.find? (fun u => decide (u._id = id))

/-- The query `User.findOne(cond)`. -/
def findOne (st : Store) (cond : User → Bool) : Option User :=
  st.find? cond

/-- The insertion of a new document; `none` is the duplicate-key error of
the `_id` index or of the `unique` indexes on `email` and `cardNumber`. -/
def insertOne (st : Store) (u : User) : Option Store :=
  if st.any (fun v => decide (v._id = u._id) || decide (v.email = u.email) ||
      decide (v.cardNumber = u.cardNumber)) then none
  else some (st ++ [u])

/-- The update of the stored document that has the `_id` of `u`. -/
def updateOne : Store → User → Store
  | [], _ => []
  | v :: rest, u => if v._id = u._id then u :: rest else v :: updateOne rest u

/-- The call `newUser.save()` on a new document: validation, then
insertion.  `none` is a rejected promise. -/
def saveNew (st : Store) (u : User) : Option Store :=
  if validate u then insertOne st u else none

/-- The call `user.save()` on a loaded document whose `balance` was assigned
`balance` and whose `transactions` got `t` in front: a CastError recorded
by an assignment of `NaN`, or a failed validator, rejects the promise. -/
def saveLoaded (st : Store) (u : User) (balance : JSNum) (t : Transaction) : Option (User × Store) :=
  match castNumber balance, castNumber t.amount, castNumber t.balance with
  | Cast.value b, Cast.value a, Cast.value tb =>
    let user : User := { u with balance := b, transactions := { t with amount := a, balance := tb } :: u.transactions }
    if validate user then some (user, updateOne st user) else none
  | _, _, _ => none

/-! ## Requests and responses -/

/-- The `message` of a response body. -/
inductive Message where
  | text (s : String) : Message
  | deposited (amount : JSValue) : Message
  | withdrew (amount : JSValue) : Message
  deriving DecidableEq

/-- The `user` object of a response body. -/
structure UserView where
  id : ObjectId
  name : String
  email : String
  cardNumber : String
  balance : JSNum
  transactions : Option (List Transaction)
  deriving DecidableEq

/-- The rest of a response body. -/
inductive Payload where
  | none : Payload
  | user (v : UserView) : Payload
  | balance (balance : JSNum) (transaction : Option Transaction) : Payload
  | transactions (l : List Transaction) : Payload
  deriving DecidableEq

/-- An HTTP response: `res.status(status).json(...)`. -/
structure Response where
  status : Nat
  success : Bool
  message : Option Message
  payload : Payload
  deriving DecidableEq

/-- A failure response: `success: false` with a message. -/
def failure (status : Nat) (message : String) : Response :=
  { status := status, success := false, message := some (Message.text message), payload := Payload.none }

/-- The `userId` of a deposit or withdrawal body, by what the handler does
with it: a falsy value, a truthy value Mongoose cannot cast to an ObjectId,
or an ObjectId. -/
inductive UserIdArg where
  | falsy : UserIdArg
  | malformed : UserIdArg
  | id (i : ObjectId) : UserIdArg
  deriving DecidableEq

/-- The expression `!userId`. -/
def UserIdArg.isFalsy : UserIdArg → Bool
  | UserIdArg.falsy => true
  | _ => false

/-- The body of `POST /api/signup`. -/
structure SignupBody where
  name : Option String
  email : Option String
  cardNumber : JSValue
  pin : Option String
  balance : JSValue
  deriving DecidableEq

/-! ## The route handlers -/

/-- The handler of `POST /api/signup`. -/
def signup (st : Store) (body : SignupBody) (newId : ObjectId) (now : Date) : Response × Store :=
  match body.name, body.email, body.pin with
  | some name, some email, some pin =>
    if name = "" || email = "" || !body.cardNumber.truthy || pin = "" then
      (failure 400 "❌ All fields are required", st)
    else
      match body.cardNumber with
      | JSValue.str cardNumber =>
        let cleanCardNumber := removeSpaces cardNumber
        if !digitsBetween 4 16 cleanCardNumber then
          (failure 400 "❌ Card number must be 4-16 digits", st)
        else if !digitsBetween 4 6 pin then
          (failure 400 "❌ PIN must be 4-6 digits", st)
        else
          let existingUser := findOne st (fun u =>
            decide (u.email = setEmail email) || decide (u.cardNumber = setCardNumber cleanCardNumber))
          match existingUser with
          | some _ => (failure 400 "❌ Email or Card number already registered", st)
          | none =>
            match balancePath (JSValue.or body.balance (JSValue.num 1000)) with
            | none => (failure 500 "❌ Server error during signup", st)
            | some balance =>
              let newUser : User :=
                { _id := newId, name := setName name, email := setEmail email,
                  cardNumber := setCardNumber cleanCardNumber, pin := pin,
                  balance := balance, transactions := [], createdAt := now }
              match saveNew st newUser with
              | none => (failure 500 "❌ Server error during signup", st)
              | some st2 =>
                ({ status := 201, success := true,
                   message := some (Message.text "✅ Account created successfully!"),
                   payload := Payload.user
                     { id := newUser._id, name := newUser.name, email := newUser.email,
                       cardNumber := newUser.cardNumber, balance := newUser.balance,
                       transactions := none } }, st2)
      | _ => (failure 500 "❌ Server error during signup", st)
  | _, _, _ => (failure 400 "❌ All fields are required", st)

/-- The handler of `POST /api/login`. -/
def login (st : Store) (cardNumber pin : JSValue) : Response × Store :=
  if !cardNumber.truthy || !pin.truthy then
    (failure 400 "❌ Card number and PIN are required", st)
  else
    match cardNumber with
    | JSValue.str c =>
      let cleanCardNumber := removeSpaces c
      match findOne st (fun u => decide (u.cardNumber = setCardNumber cleanCardNumber)) with
      | none => (failure 401 "❌ Invalid card number or PIN", st)
      | some user =>
        if JSValue.str user.pin ≠ pin then
          (failure 401 "❌ Invalid card number or PIN", st)
        else
          ({ status := 200, success := true,
             message := some (Message.text "✅ Login successful!"),
             payload := Payload.user
               { id := user._id, name := user.name, email := user.email,
                 cardNumber := user.cardNumber, balance := user.balance,
                 transactions := some user.transactions } }, st)
    | _ => (failure 500 "❌ Server error during login", st)

/-- The handler of `GET /api/user/:id`; `none` is a path parameter Mongoose
cannot cast to an ObjectId. -/
def getUser (st : Store) (id : Option ObjectId) : Response × Store :=
  match id with
  | none => (failure 500 "❌ Server error", st)
  | some i =>
    match findById st i with
    | none => (failure 404 "❌ User not found", st)
    | some user =>
      ({ status := 200, success := true, message := none,
         payload := Payload.user
           { id := user._id, name := user.name, email := user.email,
             cardNumber := user.cardNumber, balance := user.balance,
             transactions := some user.transactions } }, st)

/-- The handler of `POST /api/deposit`. -/
def deposit (st : Store) (userId : UserIdArg) (amount : JSValue) (now : Date) : Response × Store :=
  if userId.isFalsy || !amount.truthy || JSNum.le amount.toNumber (JSNum.fin 0) then
    (failure 400 "❌ Invalid deposit amount", st)
  else
    match userId with
    | UserIdArg.id i =>
      match findById st i with
      | none => (failure 404 "❌ User not found", st)
      | some user =>
        let balance := JSNum.add user.balance amount.parseFloat
        let t : Transaction :=
          { type := TransactionType.deposit, amount := amount.parseFloat, balance := balance, date := now }
        match saveLoaded st user balance t with
        | none => (failure 500 "❌ Server error during deposit", st)
        | some (saved, st2) =>
          ({ status := 200, success := true, message := some (Message.deposited amount),
             payload := Payload.balance saved.balance saved.transactions.head? }, st2)
    | _ => (failure 500 "❌ Server error during deposit", st)

/-- The handler of `POST /api/withdraw`. -/
def withdraw (st : Store) (userId : UserIdArg) (amount : JSValue) (now : Date) : Response × Store :=
  if userId.isFalsy || !amount.truthy || JSNum.le amount.toNumber (JSNum.fin 0) then
    (failure 400 "❌ Invalid withdrawal amount", st)
  else
    match userId with
    | UserIdArg.id i =>
      match findById st i with
      | none => (failure 404 "❌ User not found", st)
      | some user =>
        if JSNum.lt user.balance amount.parseFloat then
          (failure 400 "❌ Insufficient funds", st)
        else
          let balance := JSNum.sub user.balance amount.parseFloat
          let t : Transaction :=
            { type := TransactionType.withdraw, amount := amount.parseFloat, balance := balance, date := now }
          match saveLoaded st user balance t with
          | none => (failure 500 "❌ Server error during withdrawal", st)
          | some (saved, st2) =>
            ({ status := 200, success := true, message := some (Message.withdrew amount),
               payload := Payload.balance saved.balance saved.transactions.head? }, st2)
    | _ => (failure 500 "❌ Server error during withdrawal", st)

/-- The handler of `GET /api/transactions/:userId`; `none` is a path
parameter Mongoose cannot cast to an ObjectId. -/
def transactions (st : Store) (userId : Option ObjectId) : Response × Store :=
  match userId with
  | none => (failure 500 "❌ Server error", st)
  | some i =>
    match findById st i with
    | none => (failure 404 "❌ User not found", st)
    | some user =>
      ({ status := 200, success := true, message := none,
         payload := Payload.transactions user.transactions }, st)

/-- A request to one of the six routes, with the ObjectId or clock reading
the environment supplies while it is served. -/
inductive Request where
  | signup (body : SignupBody) (newId : ObjectId) (now : Date) : Request
  | login (cardNumber pin : JSValue) : Request
  | getUser (id : Option ObjectId) : Request
  | deposit (userId : UserIdArg) (amount : JSValue) (now : Date) : Request
  | withdraw (userId : UserIdArg) (amount : JSValue) (now : Date) : Request
  | transactions (userId : Option ObjectId) : Request

/-- The server serving one request. -/
def handle (st : Store) : Request → Response × Store
  | Request.signup body newId now => signup st body newId now
  | Request.login cardNumber pin => login st cardNumber pin
  | Request.getUser id => getUser st id
  | Request.deposit userId amount now => deposit st userId amount now
  | Request.withdraw userId amount now => withdraw st userId amount now
  | Request.transactions userId => transactions st userId

/-- The collection after the server has served the requests in turn. -/
def run (st : Store) : List Request → Store
  | [] => st
  | r :: rest => run (handle st r).2 rest

/-- The collections the server can reach from the empty one. -/
def Reachable (st : Store) : Prop := ∃ reqs : List Request, run [] reqs = st

/-! ## Observing a run -/

/-- The requests of a run, each with the response it got and the collection
it left. -/
def trace (st : Store) : List Request → List (Request × Response × Store)
  | [] => []
  | r :: rest => (r, handle st r) :: trace (handle st r).2 rest

/-- The `balance` of the account `i` in a collection. -/
def balanceOf (st : Store) (i : ObjectId) : JSNum :=
  match findById st i with
  | some u => u.balance
  | none => JSNum.nan

/-- A served request is an accepted operation on the account `i` when it is
a deposit or withdrawal for `i` answered with status 200. -/
def acceptedOn (i : ObjectId) (x : Request × Response × Store) : Bool :=
  match x.1 with
  | Request.deposit (UserIdArg.id j) _ _ => decide (j = i) && decide (x.2.1.status = 200)
  | Request.withdraw (UserIdArg.id j) _ _ => decide (j = i) && decide (x.2.1.status = 200)
  | _ => false

/-- The ledger entry an accepted operation on the account `i` stands for:
its kind, its amount, the balance of `i` in the collection it left, and its
clock reading. -/
def ledgerEntry (i : ObjectId) (x : Request × Response × Store) : Option Transaction :=
  match x.1 with
  | Request.deposit _ amount now =>
    if acceptedOn i x then
      some { type := TransactionType.deposit, amount := amount.parseFloat,
             balance := balanceOf x.2.2 i, date := now }
    else none
  | Request.withdraw _ amount now =>
    if acceptedOn i x then
      some { type := TransactionType.withdraw, amount := amount.parseFloat,
             balance := balanceOf x.2.2 i, date := now }
    else none
  | _ => none

/-- The three responses of the signup handler to a body that fails its
field checks. -/
def signupValidationErrors : List Response :=
  [failure 400 "❌ All fields are required",
   failure 400 "❌ Card number must be 4-16 digits",
   failure 400 "❌ PIN must be 4-6 digits"]

/-- A signup body of four strings and an optional initial balance. -/
def signupBody (name email cardNumber pin : String) (balance : JSValue) : SignupBody :=
  { name := some name, email := some email, cardNumber := JSValue.str cardNumber,
    pin := some pin, balance := balance }

/-! ## Example data -/

/-- An account with balance 100 and no transactions. -/
def alice : User :=
  { _id := 1, name := "Alice", email := "alice@example.com", cardNumber := "12345678",
    pin := "1234", balance := JSNum.fin 100, transactions := [], createdAt := 0 }

/-- The signup body that creates `alice`. -/
def aliceSignup : SignupBody :=
  signupBody "Alice" "Alice@Example.com" "1234 5678" "1234" (JSValue.num 100)

/-- A second account, with another card number. -/
def bob : User :=
  { _id := 2, name := "Bob", email := "bob@example.com", cardNumber := "87654321",
    pin := "4321", balance := JSNum.fin 0, transactions := [], createdAt := 3 }

/-! ## Numbers -/

theorem findById_some {st : Store} {i : ObjectId} {u : User} (h : findById st i = some u) :
    u._id = i ∧ u ∈ st := by
  unfold findById at h
  exact ⟨by simpa using List.find?_some h, List.mem_of_find?_eq_some h⟩

theorem mem_updateOne {st : Store} {u x : User} (h : x ∈ updateOne st u) : x ∈ st ∨ x = u := by
  induction st with
  | nil => simp [updateOne] at h
  | cons v rest ih =>
    unfold updateOne at h
    split at h
    · rcases List.mem_cons.1 h with h | h
      · exact Or.inr h
      · exact Or.inl (List.mem_cons_of_mem _ h)
    · rcases List.mem_cons.1 h with h | h
      · exact Or.inl (h ▸ List.mem_cons_self _ _)
      · rcases ih h with h | h
        · exact Or.inl (List.mem_cons_of_mem _ h)
        · exact Or.inr h

theorem findById_updateOne_same (st : Store) (u old : User) (h : findById st u._id = some old) :
    findById (updateOne st u) u._id = some u := by
  induction st with
  | nil => simp [findById] at h
  | cons v rest ih =>
    unfold updateOne
    by_cases hv : v._id = u._id
    · simp [hv, findById]
    · have h2 : findById rest u._id = some old := by
        simpa [findById, List.find?_cons, hv] using h
      simpa [hv, findById, List.find?_cons] using ih h2

theorem findById_updateOne_other {st : Store} {u : User} {i : ObjectId} (h : u._id ≠ i) :
    findById (updateOne st u) i = findById st i := by
  induction st with
  | nil => simp [updateOne]
  | cons v rest ih =>
    unfold updateOne
    by_cases hv : v._id = u._id
    · have hvi : v._id ≠ i := hv ▸ h
      simp [hv, findById, List.find?_cons, h]
    · by_cases hvi : v._id = i
      · have hiu : ¬ i = u._id := fun e => h e.symm
        simp [findById, List.find?_cons, hvi, hiu]
      · simpa [hv, findById, List.find?_cons, hvi] using ih

theorem findById_append_some {st : Store} {i : ObjectId} {u v : User} (h : findById st i = some u) :
    findById (st ++ [v]) i = some u := by
  unfold findById at *
  simp [List.find?_append, h]

/-! ## Saving -/

theorem saveNew_eq_some {st st2 : Store} {u : User} (h : saveNew st u = some st2) :
    validate u = true ∧ insertOne st u = some st2 := by
  unfold saveNew at h
  split at h
  · exact ⟨by assumption, h⟩
  · cases h

theorem insertOne_eq_some {st st2 : Store} {u : User} (h : insertOne st u = some st2) :
    st2 = st ++ [u] ∧
      ∀ v ∈ st, v._id ≠ u._id ∧ v.email ≠ u.email ∧ v.cardNumber ≠ u.cardNumber := by
  unfold insertOne at h
  split at h
  · cases h
  · rename_i hany
    refine ⟨by injection h with h; exact h.symm, ?_⟩
    intro v hv
    simp only [List.any_eq_true, not_exists, not_and, Bool.or_eq_true, decide_eq_true_eq] at hany
    have := hany v hv
    tauto

theorem saveLoaded_eq_some {st st2 : Store} {u saved : User} {b : JSNum} {t : Transaction}
    (h : saveLoaded st u b t = some (saved, st2)) :
    saved = { u with balance := b, transactions := t :: u.transactions } ∧
    validate saved = true ∧ st2 = updateOne st saved := by
  unfold saveLoaded castNumber at h
  cases hb : b.isNaN <;> cases ha : t.amount.isNaN <;> cases htb : t.balance.isNaN <;>
    simp [hb, ha, htb] at h
  obtain ⟨hv, h1, h2⟩ := h
  subst h1
  exact ⟨rfl, hv, h2.symm⟩

/-- A request leaves the collection as it is, appends a valid new document
without transactions, or replaces a stored document by a valid one that
differs in its balance and has one more transaction in front. -/
theorem handle_store (st : Store) (r : Request) :
    (handle st r).2 = st ∨
    (∃ u : User, validate u = true ∧ u.transactions = [] ∧
      insertOne st u = some (handle st r).2) ∨
    (∃ (old : User) (b : JSNum) (t : Transaction), findById st old._id = some old ∧
      validate { old with balance := b, transactions := t :: old.transactions } = true ∧
      (handle st r).2 =
        updateOne st { old with balance := b, transactions := t :: old.transactions }) := by
  cases r with
  | signup body newId now =>
    dsimp only [handle, signup]
    repeat' split
    all_goals try exact Or.inl rfl
    rename_i hs
    exact Or.inr (Or.inl ⟨_, (saveNew_eq_some hs).1, rfl, (saveNew_eq_some hs).2⟩)
  | login c p =>
    dsimp only [handle, login]
    repeat' split
    all_goals exact Or.inl rfl
  | getUser id =>
    dsimp only [handle, getUser]
    repeat' split
    all_goals exact Or.inl rfl
  | deposit userId amount now =>
    dsimp only [handle, deposit]
    repeat' split
    all_goals try exact Or.inl rfl
    rename_i i _ user hf _ saved st2 hs
    obtain ⟨h1, h2, h3⟩ := saveLoaded_eq_some hs
    subst h1
    have hid := (findById_some hf).1
    exact Or.inr (Or.inr ⟨user, _, _, by rw [hid]; exact hf, h2, h3⟩)
  | withdraw userId amount now =>
    dsimp only [handle, withdraw]
    repeat' split
    all_goals try exact Or.inl rfl
    rename_i i _ user hf _ _ saved st2 hs
    obtain ⟨h1, h2, h3⟩ := saveLoaded_eq_some hs
    subst h1
    have hid := (findById_some hf).1
    exact Or.inr (Or.inr ⟨user, _, _, by rw [hid]; exact hf, h2, h3⟩)
  | transactions userId =>
    dsimp only [handle, transactions]
    repeat' split
    all_goals exact Or.inl rfl

theorem handle_valid {st : Store} (h : ∀ u ∈ st, validate u = true) (r : Request) :
    ∀ u ∈ (handle st r).2, validate u = true := by
  rcases handle_store st r with he | ⟨v, hv, -, hi⟩ | ⟨old, b, t, -, hv, he⟩
  · rw [he]; exact h
  · rw [(insertOne_eq_some hi).1]
    intro u hu
    rcases List.mem_append.1 hu with hu | hu
    · exact h u hu
    · rw [List.mem_singleton.1 hu]; exact hv
  · rw [he]
    intro u hu
    rcases mem_updateOne hu with hu | hu
    · exact h u hu
    · rw [hu]; exact hv

theorem run_valid {st : Store} (h : ∀ u ∈ st, validate u = true) (reqs : List Request) :
    ∀ u ∈ run st reqs, validate u = true := by
  induction reqs generalizing st with
  | nil => exact h
  | cons r rest ih => exact ih (handle_valid h r)

theorem validate_balance {u : User} (h : validate u = true) :
    JSNum.ge u.balance (JSNum.fin 0) = true := by
  simp only [validate, Bool.and_eq_true] at h
  exact h.2

theorem amount_check_num (i : ObjectId) {a : ℚ} (ha : 0 < a) :
    ((UserIdArg.id i).isFalsy || !(JSValue.num a).truthy ||
      JSNum.le (JSValue.num a).toNumber (JSNum.fin 0)) = false := by
  have ha0 : a ≠ 0 := ne_of_gt ha
  simp [UserIdArg.isFalsy, JSValue.truthy, JSValue.toNumber, JSNum.le, JSNum.lt, ha0, ha]

/-- An amount that is falsy, or whose number is `<= 0`, is answered with the
400 of the amount check by both handlers, before any account is looked up. -/
theorem amount_check_rejects (st : Store) (userId : UserIdArg) (amount : JSValue) (now : Date)
    (h : amount.truthy = false ∨ JSNum.le amount.toNumber (JSNum.fin 0) = true) :
    deposit st userId amount now = (failure 400 "❌ Invalid deposit amount", st) ∧
    withdraw st userId amount now = (failure 400 "❌ Invalid withdrawal amount", st) := by
  have hc : (userId.isFalsy || !amount.truthy || JSNum.le amount.toNumber (JSNum.fin 0)) = true := by
    rcases h with h | h <;> simp [h]
  simp [deposit, withdraw, hc]

/-- C1: a withdrawal of a numeric amount `a > 0` that exceeds the balance of
an existing account is answered with the 400 "Insufficient funds" response
and leaves the collection, hence the balance and the transaction list of the
account, exactly as it was. -/
theorem withdraw_insufficient_funds (st : Store) (i : ObjectId) (u : User) (a : ℚ) (now : Date)
    (hf : findById st i = some u) (ha : 0 < a)
    (hlt : JSNum.lt u.balance (JSNum.fin a) = true) :
    withdraw st (UserIdArg.id i) (JSValue.num a) now =
        (failure 400 "❌ Insufficient funds", st) ∧
      findById (withdraw st (UserIdArg.id i) (JSValue.num a) now).2 i = some u := by
  have h : withdraw st (UserIdArg.id i) (JSValue.num a) now =
      (failure 400 "❌ Insufficient funds", st) := by
    simp [withdraw, amount_check_num i ha, hf, JSValue.parseFloat, hlt]
  rw [h]
  exact ⟨rfl, hf⟩

theorem withdraw_insufficient_funds_witness :
    withdraw [alice] (UserIdArg.id 1) (JSValue.num 150) 7 =
        (failure 400 "❌ Insufficient funds", [alice]) ∧
      findById (withdraw [alice] (UserIdArg.id 1) (JSValue.num 150) 7).2 1 = some alice :=
  withdraw_insufficient_funds [alice] 1 alice 150 7 (by decide) (by norm_num)
    (by simp [alice, JSNum.lt]; norm_num)

/-- C2: in every collection the server reaches from the empty one, whatever
the requests and their arguments, every stored account has `balance >= 0`. -/
theorem balance_nonneg (reqs : List Request) :
    ∀ u ∈ run [] reqs, JSNum.ge u.balance (JSNum.fin 0) = true :=
  fun u hu => validate_balance (run_valid (by simp) reqs u hu)

theorem findById_updateOne_found {st : Store} {i : ObjectId} {u v : User}
    (hf : findById st i = some u) (hv : v._id = u._id) :
    findById (updateOne st v) i = some v := by
  have hid : u._id = i := (findById_some hf).1
  have := findById_updateOne_same st v u (by rw [hv, hid]; exact hf)
  rwa [hv, hid] at this

theorem signup_cases (st : Store) (body : SignupBody) (newId : ObjectId) (now : Date) :
    ((signup st body newId now).1.status ≠ 201 ∧ (signup st body newId now).2 = st) ∨
    ∃ u : User, (signup st body newId now).1.status = 201 ∧ validate u = true ∧
      u._id = newId ∧ u.transactions = [] ∧
      insertOne st u = some (signup st body newId now).2 := by
  dsimp only [signup]
  repeat' split
  all_goals try exact Or.inl ⟨by simp [failure], rfl⟩
  rename_i hs
  exact Or.inr ⟨_, rfl, (saveNew_eq_some hs).1, rfl, rfl, (saveNew_eq_some hs).2⟩

theorem deposit_cases (st : Store) (userId : UserIdArg) (amount : JSValue) (now : Date) :
    ((deposit st userId amount now).1.status ≠ 200 ∧ (deposit st userId amount now).2 = st) ∨
    ∃ (j : ObjectId) (u : User), userId = UserIdArg.id j ∧ findById st j = some u ∧
      (deposit st userId amount now).1.status = 200 ∧
      (deposit st userId amount now).2 =
        updateOne st { u with
          balance := JSNum.add u.balance amount.parseFloat,
          transactions :=
            { type := TransactionType.deposit, amount := amount.parseFloat,
              balance := JSNum.add u.balance amount.parseFloat, date := now } ::
              u.transactions } := by
  dsimp only [deposit]
  repeat' split
  all_goals try exact Or.inl ⟨by simp [failure], rfl⟩
  rename_i hs
  obtain ⟨h1, -, h3⟩ := saveLoaded_eq_some hs
  subst h1
  exact Or.inr ⟨_, _, rfl, by assumption, rfl, h3⟩

theorem withdraw_cases (st : Store) (userId : UserIdArg) (amount : JSValue) (now : Date) :
    ((withdraw st userId amount now).1.status ≠ 200 ∧ (withdraw st userId amount now).2 = st) ∨
    ∃ (j : ObjectId) (u : User), userId = UserIdArg.id j ∧ findById st j = some u ∧
      (withdraw st userId amount now).1.status = 200 ∧
      (withdraw st userId amount now).2 =
        updateOne st { u with
          balance := JSNum.sub u.balance amount.parseFloat,
          transactions :=
            { type := TransactionType.withdraw, amount := amount.parseFloat,
              balance := JSNum.sub u.balance amount.parseFloat, date := now } ::
              u.transactions } := by
  dsimp only [withdraw]
  repeat' split
  all_goals try exact Or.inl ⟨by simp [failure], rfl⟩
  rename_i hs
  obtain ⟨h1, -, h3⟩ := saveLoaded_eq_some hs
  subst h1
  exact Or.inr ⟨_, _, rfl, by assumption, rfl, h3⟩

theorem login_store (st : Store) (c p : JSValue) : (login st c p).2 = st := by
  dsimp only [login]
  repeat' split
  all_goals rfl

theorem getUser_store (st : Store) (id : Option ObjectId) : (getUser st id).2 = st := by
  dsimp only [getUser]
  repeat' split
  all_goals rfl

theorem transactions_store (st : Store) (id : Option ObjectId) : (transactions st id).2 = st := by
  dsimp only [transactions]
  repeat' split
  all_goals rfl

/-! ## One account along a run -/

/-- A request leaves an existing account as it is, unless it is an accepted
operation on it, which puts its ledger entry in front of the transaction
list and makes the entry's snapshot the balance. -/
theorem handle_account {st : Store} {i : ObjectId} {u : User} (hf : findById st i = some u)
    (r : Request) :
    (ledgerEntry i (r, handle st r) = none ∧ findById (handle st r).2 i = some u) ∨
    ∃ (t : Transaction) (v : User), ledgerEntry i (r, handle st r) = some t ∧
      findById (handle st r).2 i = some v ∧ v.transactions = t :: u.transactions ∧
      t.balance = v.balance := by
  cases r with
  | signup body newId now =>
    left
    refine ⟨rfl, ?_⟩
    rcases signup_cases st body newId now with ⟨-, he⟩ | ⟨v, -, -, -, -, hi⟩
    · simp only [handle]; rw [he]; exact hf
    · simp only [handle]; rw [(insertOne_eq_some hi).1]; exact findById_append_some hf
  | login c p => left; exact ⟨rfl, by simp only [handle]; rw [login_store]; exact hf⟩
  | getUser id => left; exact ⟨rfl, by simp only [handle]; rw [getUser_store]; exact hf⟩
  | transactions id =>
    left; exact ⟨rfl, by simp only [handle]; rw [transactions_store]; exact hf⟩
  | deposit userId amount now =>
    rcases deposit_cases st userId amount now with ⟨hs, he⟩ | ⟨j, u0, hj, hfj, hs, he⟩
    · left
      refine ⟨?_, by simp only [handle]; rw [he]; exact hf⟩
      cases userId <;> simp [ledgerEntry, acceptedOn, handle, hs]
    · subst hj
      by_cases hji : j = i
      · subst hji
        right
        have hu : u0 = u := by rw [hf] at hfj; injection hfj with h; exact h.symm
        subst hu
        have hfind := findById_updateOne_found (v := { u0 with
          balance := JSNum.add u0.balance amount.parseFloat,
          transactions :=
            { type := TransactionType.deposit, amount := amount.parseFloat,
              balance := JSNum.add u0.balance amount.parseFloat, date := now } ::
              u0.transactions }) hf rfl
        rw [← he] at hfind
        refine ⟨_, _, ?_, hfind, rfl, rfl⟩
        simp [ledgerEntry, acceptedOn, handle, hs, balanceOf, hfind]
      · left
        refine ⟨by simp [ledgerEntry, acceptedOn, handle, hji], ?_⟩
        simp only [handle]
        rw [he, findById_updateOne_other]
        · exact hf
        · show u0._id ≠ i
          rw [(findById_some hfj).1]; exact hji
  | withdraw userId amount now =>
    rcases withdraw_cases st userId amount now with ⟨hs, he⟩ | ⟨j, u0, hj, hfj, hs, he⟩
    · left
      refine ⟨?_, by simp only [handle]; rw [he]; exact hf⟩
      cases userId <;> simp [ledgerEntry, acceptedOn, handle, hs]
    · subst hj
      by_cases hji : j = i
      · subst hji
        right
        have hu : u0 = u := by rw [hf] at hfj; injection hfj with h; exact h.symm
        subst hu
        have hfind := findById_updateOne_found (v := { u0 with
          balance := JSNum.sub u0.balance amount.parseFloat,
          transactions :=
            { type := TransactionType.withdraw, amount := amount.parseFloat,
              balance := JSNum.sub u0.balance amount.parseFloat, date := now } ::
              u0.transactions }) hf rfl
        rw [← he] at hfind
        refine ⟨_, _, ?_, hfind, rfl, rfl⟩
        simp [ledgerEntry, acceptedOn, handle, hs, balanceOf, hfind]
      · left
        refine ⟨by simp [ledgerEntry, acceptedOn, handle, hji], ?_⟩
        simp only [handle]
        rw [he, findById_updateOne_other]
        · exact hf
        · show u0._id ≠ i
          rw [(findById_some hfj).1]; exact hji

theorem ledgerEntry_isSome (i : ObjectId) (x : Request × Response × Store) :
    (ledgerEntry i x).isSome = acceptedOn i x := by
  obtain ⟨r, resp, st⟩ := x
  cases r <;> simp [ledgerEntry, acceptedOn]
  all_goals split <;> simp_all

theorem length_filterMap_ledgerEntry (i : ObjectId) (l : List (Request × Response × Store)) :
    (l.filterMap (ledgerEntry i)).length = l.countP (acceptedOn i) := by
  induction l with
  | nil => rfl
  | cons x rest ih =>
    have hx := ledgerEntry_isSome i x
    cases he : ledgerEntry i x with
    | none =>
      rw [he] at hx
      simp [List.filterMap_cons, he, List.countP_cons, ← hx, ih]
    | some t =>
      rw [he] at hx
      simp [List.filterMap_cons, he, List.countP_cons, ← hx, ih]

theorem run_account {st : Store} {i : ObjectId} {u : User} (reqs : List Request)
    (hf : findById st i = some u)
    (hhead : ∀ t, u.transactions.head? = some t → t.balance = u.balance) :
    ∃ v : User, findById (run st reqs) i = some v ∧
      v.transactions = ((trace st reqs).filterMap (ledgerEntry i)).reverse ++ u.transactions ∧
      ∀ t, v.transactions.head? = some t → t.balance = v.balance := by
  induction reqs generalizing st u with
  | nil => exact ⟨u, hf, by simp [trace], hhead⟩
  | cons r rest ih =>
    rcases handle_account hf r with ⟨hn, hf2⟩ | ⟨t, v0, hs, hf2, htr, hbal⟩
    · obtain ⟨v, h1, h2, h3⟩ := ih hf2 hhead
      exact ⟨v, h1, by simp [trace, List.filterMap_cons, hn, h2], h3⟩
    · obtain ⟨v, h1, h2, h3⟩ := ih hf2 (by
        intro t2 ht2
        rw [htr] at ht2
        simp at ht2
        rw [← ht2]; exact hbal)
      exact ⟨v, h1, by simp [trace, List.filterMap_cons, hs, h2, htr], h3⟩

/-- C4: for an account created by a successful signup and any requests served
after it, the transactions route returns the ledger entries of the accepted
deposits and withdrawals on the account, newest first: as many entries as
accepted operations, each with the balance the account had right after its
operation, and the first entry, when there is one, with the current balance. -/
theorem transactions_newest_first (st : Store) (body : SignupBody) (i : ObjectId) (now : Date)
    (reqs : List Request) (h : (signup st body i now).1.status = 201) :
    ∃ u : User, findById (run (signup st body i now).2 reqs) i = some u ∧
      (transactions (run (signup st body i now).2 reqs) (some i)).1 =
        { status := 200, success := true, message := none,
          payload := Payload.transactions u.transactions } ∧
      u.transactions =
        ((trace (signup st body i now).2 reqs).filterMap (ledgerEntry i)).reverse ∧
      u.transactions.length = (trace (signup st body i now).2 reqs).countP (acceptedOn i) ∧
      ∀ t, u.transactions.head? = some t → t.balance = u.balance := by
  rcases signup_cases st body i now with ⟨hne, -⟩ | ⟨u0, -, -, hid, htr, hi⟩
  · exact absurd h hne
  · obtain ⟨hst, hfresh⟩ := insertOne_eq_some hi
    have hf0 : findById (signup st body i now).2 i = some u0 := by
      rw [hst]
      unfold findById
      rw [List.find?_append]
      have hnone : List.find? (fun u => decide (u._id = i)) st = none := by
        rw [List.find?_eq_none]
        intro v hv
        have := (hfresh v hv).1
        rw [hid] at this
        simpa using this
      simp [hnone, hid]
    obtain ⟨v, h1, h2, h3⟩ := run_account reqs hf0 (by rw [htr]; simp)
    rw [htr, List.append_nil] at h2
    refine ⟨v, h1, ?_, h2, ?_, h3⟩
    · simp [transactions, h1]
    · rw [h2, List.length_reverse, length_filterMap_ledgerEntry]

/-! ## Card numbers -/

theorem dropWhile_isWhiteSpace_eq {l : List Char} (h : ∀ c ∈ l, isWhiteSpace c = false) :
    l.dropWhile isWhiteSpace = l := by
  cases l with
  | nil => rfl
  | cons a rest => simp [List.dropWhile_cons, h a (List.mem_cons_self _ _)]

theorem trimChars_eq {l : List Char} (h : ∀ c ∈ l, isWhiteSpace c = false) : trimChars l = l := by
  unfold trimChars
  rw [dropWhile_isWhiteSpace_eq h, dropWhile_isWhiteSpace_eq (fun c hc => h c (List.mem_reverse.1 hc)),
    List.reverse_reverse]

theorem setCardNumber_removeSpaces (s : String) :
    setCardNumber (removeSpaces s) = removeSpaces s := by
  unfold setCardNumber trim removeSpaces
  congr 1
  apply trimChars_eq
  intro c hc
  simpa using (List.mem_filter.1 hc).2

/-- C9: for a collection with the unique index on `cardNumber` respected and
non-empty strings as card number and PIN, the login handler gives one and the
same 401 "Invalid card number or PIN" response when no account has the card
number with its whitespace removed and when the account that has it stores
another PIN, and it answers 200 exactly when some account has that card number
and the supplied PIN. -/
theorem login_auth (st : Store) (c p : String)
    (huniq : (st.map User.cardNumber).Nodup) (hc : c ≠ "") (hp : p ≠ "") :
    ((∀ u ∈ st, u.cardNumber ≠ removeSpaces c) →
      login st (JSValue.str c) (JSValue.str p) =
        (failure 401 "❌ Invalid card number or PIN", st)) ∧
    (∀ u ∈ st, u.cardNumber = removeSpaces c → u.pin ≠ p →
      login st (JSValue.str c) (JSValue.str p) =
        (failure 401 "❌ Invalid card number or PIN", st)) ∧
    ((login st (JSValue.str c) (JSValue.str p)).1.status = 200 ↔
      ∃ u ∈ st, u.cardNumber = removeSpaces c ∧ u.pin = p) := by
  have hlogin : login st (JSValue.str c) (JSValue.str p) =
      match st.find? (fun u => decide (u.cardNumber = removeSpaces c)) with
      | none => (failure 401 "❌ Invalid card number or PIN", st)
      | some user =>
        if user.pin ≠ p then (failure 401 "❌ Invalid card number or PIN", st)
        else
          ({ status := 200, success := true,
             message := some (Message.text "✅ Login successful!"),
             payload := Payload.user
               { id := user._id, name := user.name, email := user.email,
                 cardNumber := user.cardNumber, balance := user.balance,
                 transactions := some user.transactions } }, st) := by
    simp [login, JSValue.truthy, hc, hp, findOne, setCardNumber_removeSpaces]
  have hfound : ∀ u ∈ st, u.cardNumber = removeSpaces c →
      st.find? (fun u => decide (u.cardNumber = removeSpaces c)) = some u := by
    intro u hu hcard
    cases hfind : st.find? (fun u => decide (u.cardNumber = removeSpaces c)) with
    | none =>
      rw [List.find?_eq_none] at hfind
      exact absurd (by simpa using hcard) (hfind u hu)
    | some v =>
      have hv : v.cardNumber = removeSpaces c := by simpa using List.find?_some hfind
      have hmem := List.mem_of_find?_eq_some hfind
      rw [List.inj_on_of_nodup_map huniq hmem hu (hv.trans hcard.symm)]
  refine ⟨?_, ?_, ?_⟩
  · intro hnone
    have : st.find? (fun u => decide (u.cardNumber = removeSpaces c)) = none := by
      rw [List.find?_eq_none]
      intro u hu
      simpa using hnone u hu
    rw [hlogin, this]
  · intro u hu hcard hpin
    rw [hlogin, hfound u hu hcard]
    simp [hpin]
  · rw [hlogin]
    constructor
    · intro h
      cases hfind : st.find? (fun u => decide (u.cardNumber = removeSpaces c)) with
      | none => rw [hfind] at h; simp [failure] at h
      | some v =>
        rw [hfind] at h
        by_cases hpin : v.pin = p
        · exact ⟨v, List.mem_of_find?_eq_some hfind, by simpa using List.find?_some hfind, hpin⟩
        · simp [hpin, failure] at h
    · rintro ⟨u, hu, hcard, hpin⟩
      rw [hfound u hu hcard]
      simp [hpin]

theorem map_cardNumber_updateOne {st : Store} {v old : User}
    (hf : findById st v._id = some old) (hc : v.cardNumber = old.cardNumber) :
    (updateOne st v).map User.cardNumber = st.map User.cardNumber := by
  induction st with
  | nil => rfl
  | cons w rest ih =>
    unfold updateOne
    by_cases hw : w._id = v._id
    · have : w = old := by
        simpa [findById, List.find?_cons, hw] using hf
      subst this
      rw [if_pos hw]
      simp [hc]
    · have h2 : findById rest v._id = some old := by
        simpa [findById, List.find?_cons, hw] using hf
      simp [hw, ih h2]

/-- A request keeps the card numbers of the stored accounts, in order, and
adds at most one, which no stored account has. -/
theorem handle_cards (st : Store) (r : Request) :
    (handle st r).2.map User.cardNumber = st.map User.cardNumber ∨
    ∃ c : String, c ∉ st.map User.cardNumber ∧
      (handle st r).2.map User.cardNumber = st.map User.cardNumber ++ [c] := by
  rcases handle_store st r with he | ⟨v, -, -, hi⟩ | ⟨old, b, t, hf, -, he⟩
  · left; rw [he]
  · right
    obtain ⟨hst, hfresh⟩ := insertOne_eq_some hi
    refine ⟨v.cardNumber, ?_, by rw [hst]; simp⟩
    intro hmem
    obtain ⟨w, hw, hwc⟩ := List.mem_map.1 hmem
    exact (hfresh w hw).2.2 hwc
  · left
    rw [he]
    exact map_cardNumber_updateOne (v := { old with balance := b, transactions := t :: old.transactions })
      hf rfl

theorem run_cards (st : Store) (reqs : List Request) :
    (∀ c ∈ st.map User.cardNumber, c ∈ (run st reqs).map User.cardNumber) ∧
    ((st.map User.cardNumber).Nodup → ((run st reqs).map User.cardNumber).Nodup) := by
  induction reqs generalizing st with
  | nil => exact ⟨fun _ h => h, fun h => h⟩
  | cons r rest ih =>
    obtain ⟨ih1, ih2⟩ := ih (handle st r).2
    rcases handle_cards st r with he | ⟨c, hc, he⟩
    · exact ⟨fun x hx => ih1 x (by rw [he]; exact hx), fun h => ih2 (by rw [he]; exact h)⟩
    · refine ⟨fun x hx => ih1 x (by rw [he]; exact List.mem_append_left _ hx), fun h => ih2 ?_⟩
      rw [he]
      exact List.Nodup.append h (List.nodup_singleton c) (by
        intro x hx hx2
        rw [List.mem_singleton.1 hx2] at hx
        exact hc hx)

theorem reachable_cards_nodup {st : Store} (h : Reachable st) :
    (st.map User.cardNumber).Nodup := by
  obtain ⟨reqs, rfl⟩ := h
  exact (run_cards [] reqs).2 List.nodup_nil

/-- What a signup answered with status 201 has checked and stored. -/
theorem signup_created {st : Store} {body : SignupBody} {newId : ObjectId} {now : Date}
    (h : (signup st body newId now).1.status = 201) :
    ∃ (name email card pin : String) (b : JSNum),
      body.name = some name ∧ body.email = some email ∧ body.cardNumber = JSValue.str card ∧
      body.pin = some pin ∧ digitsBetween 4 16 (removeSpaces card) = true ∧
      digitsBetween 4 6 pin = true ∧
      balancePath (JSValue.or body.balance (JSValue.num 1000)) = some b ∧
      (signup st body newId now).2 = st ++
        [{ _id := newId, name := setName name, email := setEmail email,
           cardNumber := setCardNumber (removeSpaces card), pin := pin, balance := b,
           transactions := [], createdAt := now }] := by
  revert h
  dsimp only [signup]
  repeat' split
  all_goals intro h
  all_goals try (exfalso; simp [failure] at h; done)
  rename_i hs
  refine ⟨_, _, _, _, _, by assumption, by assumption, by assumption, by assumption, ?_, ?_, by assumption, ?_⟩
  · simp_all
  · simp_all
  · exact (insertOne_eq_some (saveNew_eq_some hs).2).1

theorem findOne_card_isSome {st : Store} {c : String} (e : String)
    (hex : c ∈ st.map User.cardNumber) :
    ∃ v, findOne st (fun u => decide (u.email = e) || decide (u.cardNumber = c)) = some v := by
  obtain ⟨w, hw, hwc⟩ := List.mem_map.1 hex
  cases hfind : findOne st (fun u => decide (u.email = e) || decide (u.cardNumber = c)) with
  | some v => exact ⟨v, rfl⟩
  | none =>
    unfold findOne at hfind
    rw [List.find?_eq_none] at hfind
    exact absurd (by simp [hwc]) (hfind w hw)

/-- A signup whose card number, with its whitespace removed, is one a stored
account has: nothing is stored, and the answer is the 400 "already
registered" when name, email and PIN pass the field checks, and the 400 of
the failed field check otherwise. -/
theorem signup_card_taken {st : Store} {body : SignupBody} {c : String} (newId : ObjectId) (now : Date)
    (hcard : body.cardNumber = JSValue.str c)
    (hd : digitsBetween 4 16 (removeSpaces c) = true)
    (hex : setCardNumber (removeSpaces c) ∈ st.map User.cardNumber) :
    (signup st body newId now).2 = st ∧
    (∀ n e p : String, body.name = some n → body.email = some e → body.pin = some p →
      n ≠ "" → e ≠ "" → digitsBetween 4 6 p = true →
      (signup st body newId now).1 = failure 400 "❌ Email or Card number already registered") ∧
    ((¬ ∃ n e p : String, body.name = some n ∧ body.email = some e ∧ body.pin = some p ∧
        n ≠ "" ∧ e ≠ "" ∧ digitsBetween 4 6 p = true) →
      (signup st body newId now).1 ∈ signupValidationErrors) := by
  obtain ⟨name, email, card, pin, balance⟩ := body
  simp only at hcard
  subst hcard
  cases name with
  | none => simp [signup, signupValidationErrors]
  | some n =>
    cases email with
    | none => simp [signup, signupValidationErrors]
    | some e =>
      cases pin with
      | none => simp [signup, signupValidationErrors]
      | some p =>
        obtain ⟨v, hv⟩ := findOne_card_isSome (setEmail e) hex
        by_cases h1 : (n = "" ∨ e = "" ∨ c = "" ∨ p = "")
        · have : (decide (n = "") || decide (e = "") || !(JSValue.str c).truthy ||
              decide (p = "")) = true := by
            simp only [JSValue.truthy, Bool.or_eq_true, decide_eq_true_eq, Bool.not_eq_true',
              decide_eq_false_iff_not, ne_eq, not_not]
            tauto
          simp only [signup, this, if_true, signupValidationErrors]
          refine ⟨trivial, ?_, fun _ => by simp⟩
          intro n2 e2 p2 hn he hp hn0 he0
          simp only [Option.some.injEq] at hn he hp
          subst hn he hp
          intro hp2
          rcases h1 with h | h | h | h
          · exact absurd h hn0
          · exact absurd h he0
          · subst h; simp [removeSpaces, digitsBetween] at hd
          · subst h; simp [digitsBetween] at hp2
        · have : (decide (n = "") || decide (e = "") || !(JSValue.str c).truthy ||
              decide (p = "")) = false := by
            simp only [not_or] at h1
            simp [JSValue.truthy, h1]
          simp only [not_or] at h1
          by_cases hp : digitsBetween 4 6 p = true
          · refine ⟨by simp [signup, this, hd, hp, hv], by simp [signup, this, hd, hp, hv], ?_⟩
            intro hno
            exact absurd ⟨n, e, p, rfl, rfl, rfl, h1.1, h1.2.1, hp⟩ hno
          · simp [signup, this, hd, hp, signupValidationErrors]

/-- C7 (amended): once a signup with card number `c1` has been answered 201,
every later signup whose card number `c2` equals `c1` after the removal of
whitespace fails and adds no account: it gets the 400 "already registered"
response when its name, email and PIN pass the field checks, and the 400 of
the failed field check otherwise.  No two accounts of a reachable collection
share a card number. -/
theorem signup_same_card_rejected (st : Store) (body1 body2 : SignupBody) (c1 c2 : String)
    (id1 id2 : ObjectId) (now1 now2 : Date) (reqs : List Request)
    (hc1 : body1.cardNumber = JSValue.str c1) (hc2 : body2.cardNumber = JSValue.str c2)
    (h1 : (signup st body1 id1 now1).1.status = 201)
    (hc : removeSpaces c2 = removeSpaces c1) :
    (signup (run (signup st body1 id1 now1).2 reqs) body2 id2 now2).2 =
        run (signup st body1 id1 now1).2 reqs ∧
    (∀ n e p : String, body2.name = some n → body2.email = some e → body2.pin = some p →
      n ≠ "" → e ≠ "" → digitsBetween 4 6 p = true →
      (signup (run (signup st body1 id1 now1).2 reqs) body2 id2 now2).1 =
        failure 400 "❌ Email or Card number already registered") ∧
    ((¬ ∃ n e p : String, body2.name = some n ∧ body2.email = some e ∧ body2.pin = some p ∧
        n ≠ "" ∧ e ≠ "" ∧ digitsBetween 4 6 p = true) →
      (signup (run (signup st body1 id1 now1).2 reqs) body2 id2 now2).1 ∈
        signupValidationErrors) ∧
    (∀ st2 : Store, Reachable st2 → (st2.map User.cardNumber).Nodup) := by
  obtain ⟨name, email, card, pin, b, -, -, hcard, -, hd, -, -, hst⟩ := signup_created h1
  have hcc : card = c1 := by rw [hc1] at hcard; injection hcard with h; exact h.symm
  subst hcc
  have hmem : setCardNumber (removeSpaces c2) ∈
      (run (signup st body1 id1 now1).2 reqs).map User.cardNumber := by
    apply (run_cards _ reqs).1
    rw [hst, hc]
    simp
  obtain ⟨r1, r2, r3⟩ := signup_card_taken id2 now2 hc2 (by rw [hc]; exact hd) hmem
  exact ⟨r1, r2, r3, fun _ h => reachable_cards_nodup h⟩

/-- The signup of `aliceSignup` on the empty collection stores `alice`. -/
theorem run_aliceSignup : run [] [Request.signup aliceSignup 1 0] = [alice] := by decide!

theorem balance_nonneg_witness :
    alice ∈ run [] [Request.signup aliceSignup 1 0] ∧
      JSNum.ge alice.balance (JSNum.fin 0) = true :=
  ⟨by rw [run_aliceSignup]; exact List.mem_singleton.2 rfl,
    balance_nonneg [Request.signup aliceSignup 1 0] alice
      (by rw [run_aliceSignup]; exact List.mem_singleton.2 rfl)⟩

theorem transactions_newest_first_witness :
    ∃ u : User,
      findById (run (signup [] aliceSignup 1 0).2
        [Request.deposit (UserIdArg.id 1) (JSValue.num 10) 5,
         Request.withdraw (UserIdArg.id 1) (JSValue.num 500) 6,
         Request.withdraw (UserIdArg.id 1) (JSValue.num 30) 7]) 1 = some u ∧
      (transactions (run (signup [] aliceSignup 1 0).2
        [Request.deposit (UserIdArg.id 1) (JSValue.num 10) 5,
         Request.withdraw (UserIdArg.id 1) (JSValue.num 500) 6,
         Request.withdraw (UserIdArg.id 1) (JSValue.num 30) 7]) (some 1)).1 =
        { status := 200, success := true, message := none,
          payload := Payload.transactions u.transactions } ∧
      u.transactions =
        ((trace (signup [] aliceSignup 1 0).2
          [Request.deposit (UserIdArg.id 1) (JSValue.num 10) 5,
           Request.withdraw (UserIdArg.id 1) (JSValue.num 500) 6,
           Request.withdraw (UserIdArg.id 1) (JSValue.num 30) 7]).filterMap
            (ledgerEntry 1)).reverse ∧
      u.transactions.length =
        (trace (signup [] aliceSignup 1 0).2
          [Request.deposit (UserIdArg.id 1) (JSValue.num 10) 5,
           Request.withdraw (UserIdArg.id 1) (JSValue.num 500) 6,
           Request.withdraw (UserIdArg.id 1) (JSValue.num 30) 7]).countP (acceptedOn 1) ∧
      ∀ t, u.transactions.head? = some t → t.balance = u.balance :=
  transactions_newest_first [] aliceSignup 1 0
    [Request.deposit (UserIdArg.id 1) (JSValue.num 10) 5,
     Request.withdraw (UserIdArg.id 1) (JSValue.num 500) 6,
     Request.withdraw (UserIdArg.id 1) (JSValue.num 30) 7] (by decide!)

/-- C5: the amount checks of deposit and withdrawal let non-numeric strings
through: `"10abc"` is accepted as the amount 10, answered 200 and applied to
the balance; `"abc"` reaches the account and ends in the 500 response. -/
theorem amount_non_numeric_string :
    deposit [alice] (UserIdArg.id 1) (JSValue.str "10abc") 5 =
      ({ status := 200, success := true,
         message := some (Message.deposited (JSValue.str "10abc")),
         payload := Payload.balance (JSNum.fin 110)
           (some { type := TransactionType.deposit, amount := JSNum.fin 10,
                   balance := JSNum.fin 110, date := 5 }) },
       [{ alice with
            balance := JSNum.fin 110,
            transactions := [{ type := TransactionType.deposit, amount := JSNum.fin 10,
                               balance := JSNum.fin 110, date := 5 }] }]) ∧
    withdraw [alice] (UserIdArg.id 1) (JSValue.str "10abc") 5 =
      ({ status := 200, success := true,
         message := some (Message.withdrew (JSValue.str "10abc")),
         payload := Payload.balance (JSNum.fin 90)
           (some { type := TransactionType.withdraw, amount := JSNum.fin 10,
                   balance := JSNum.fin 90, date := 5 }) },
       [{ alice with
            balance := JSNum.fin 90,
            transactions := [{ type := TransactionType.withdraw, amount := JSNum.fin 10,
                               balance := JSNum.fin 90, date := 5 }] }]) ∧
    deposit [alice] (UserIdArg.id 1) (JSValue.str "abc") 5 =
      (failure 500 "❌ Server error during deposit", [alice]) ∧
    withdraw [alice] (UserIdArg.id 1) (JSValue.str "abc") 5 =
      (failure 500 "❌ Server error during withdrawal", [alice]) := by
  decide!

/-- C6: a signup that supplies the initial balance 0 is answered 201 and
stores the balance 1000, the value of `balance || 1000.00`. -/
theorem signup_balance_zero :
    signup [] (signupBody "Alice" "Alice@Example.com" "1234 5678" "1234" (JSValue.num 0)) 1 0 =
      ({ status := 201, success := true,
         message := some (Message.text "✅ Account created successfully!"),
         payload := Payload.user
           { id := 1, name := "Alice", email := "alice@example.com", cardNumber := "12345678",
             balance := JSNum.fin 1000, transactions := none } },
       [{ alice with balance := JSNum.fin 1000 }]) := by
  decide!

/-- After the signup of `alice` with card number "1234 5678", a signup with
"12345678" and the PIN "12" gets the 400 of the PIN check, which is not the
400 "already registered". -/
theorem signup_same_card_counterexample :
    (signup [] aliceSignup 1 0).1.status = 201 ∧
    removeSpaces "12345678" = removeSpaces "1234 5678" ∧
    (signup (signup [] aliceSignup 1 0).2
      (signupBody "Bob" "bob@example.com" "12345678" "12" JSValue.undefined) 2 3).1 =
        failure 400 "❌ PIN must be 4-6 digits" ∧
    failure 400 "❌ PIN must be 4-6 digits" ≠
      failure 400 "❌ Email or Card number already registered" := by
  decide!

theorem signup_same_card_rejected_witness :
    (signup (run (signup [] aliceSignup 1 0).2 [Request.deposit (UserIdArg.id 1) (JSValue.num 10) 5])
        (signupBody "Bob" "bob@example.com" "12345678" "4321" JSValue.undefined) 2 3).2 =
      run (signup [] aliceSignup 1 0).2 [Request.deposit (UserIdArg.id 1) (JSValue.num 10) 5] ∧
    (signup (run (signup [] aliceSignup 1 0).2 [Request.deposit (UserIdArg.id 1) (JSValue.num 10) 5])
        (signupBody "Bob" "bob@example.com" "12345678" "4321" JSValue.undefined) 2 3).1 =
      failure 400 "❌ Email or Card number already registered" := by
  have h := signup_same_card_rejected [] aliceSignup
    (signupBody "Bob" "bob@example.com" "12345678" "4321" JSValue.undefined)
    "1234 5678" "12345678" 1 2 0 3 [Request.deposit (UserIdArg.id 1) (JSValue.num 10) 5]
    rfl rfl (by decide!) (by decide)
  exact ⟨h.1, h.2.1 "Bob" "bob@example.com" "4321" rfl rfl rfl (by decide) (by decide)
    (by decide)⟩

theorem login_auth_witness :
    (login [alice, bob] (JSValue.str "1234 5678") (JSValue.str "1234")).1.status = 200 ∧
    login [alice, bob] (JSValue.str "1234 5678") (JSValue.str "4321") =
      (failure 401 "❌ Invalid card number or PIN", [alice, bob]) ∧
    login [alice, bob] (JSValue.str "5555") (JSValue.str "4321") =
      (failure 401 "❌ Invalid card number or PIN", [alice, bob]) :=
  ⟨(login_auth [alice, bob] "1234 5678" "1234" (by decide) (by decide) (by decide)).2.2.2
      ⟨alice, by decide, by decide, by decide⟩,
    (login_auth [alice, bob] "1234 5678" "4321" (by decide) (by decide) (by decide)).2.1
      alice (by decide) (by decide) (by decide),
    (login_auth [alice, bob] "5555" "4321" (by decide) (by decide) (by decide)).1
      (by decide)⟩

end ATM
